import Mathlib

/-!
Shallow embedding of `mcp_server/custom_types_utils.py`: runtime schema
building for custom entity and edge types, and the pair-key codec for
edge mappings.  Python dicts are modelled as insertion-ordered association
lists, JSON values as an inductive type, and Python exceptions as an
inductive carrying the exception class and the message `str(e)` would show.
The two textually duplicated loops of the source (JSON entry point versus
dict entry point) are embedded as two separate, textually identical Lean
functions so that their agreement is a theorem rather than a definition.
-/

/-- JSON values as decoded by Python `json.loads`; objects keep insertion
order, duplicate keys having been collapsed last-write-wins by the decoder.
Only integer number literals are modelled; no claim involves floats. -/
inductive JValue where
  | str (s : String)
  | num (n : Int)
  | bool (b : Bool)
  | null
  | arr (elems : List JValue)
  | obj (kvs : List (String × JValue))

/-- Python exception classes raised in this module, with their message. -/
inductive PyErr where
  | valueError (msg : String)
  | typeError (msg : String)
  | attributeError (msg : String)

/-- message of a Python exception, as `str(e)` renders it inside f-strings. -/
def PyErr.msg : PyErr → String
  | .valueError m => m
  | .typeError m => m
  | .attributeError m => m

/-- test for a JSON array, i.e. the Python `isinstance(x, list)` check. -/
def JValue.isArr : JValue → Bool
  | .arr _ => true
  | _ => false

/-- targets of TYPE_MAPPING: the concrete Python types the type-name
strings of the table denote. -/
inductive PyType where
  | str | int | float | bool | list | dict
  | listStr | listInt | listFloat
  | dictStrAny | dictStrStr | dictStrInt

/-- TYPE_MAPPING: the fixed table from type-name strings to Python types. -/
def TYPE_MAPPING : List (String × PyType) :=
  [("str", .str), ("int", .int), ("float", .float), ("bool", .bool),
   ("list", .list), ("dict", .dict),
   ("List[str]", .listStr), ("List[int]", .listInt), ("List[float]", .listFloat),
   ("Dict[str, Any]", .dictStrAny), ("Dict[str, str]", .dictStrStr),
   ("Dict[str, int]", .dictStrInt)]

/-- lookup in TYPE_MAPPING, covering both the `in` membership test and the
subscript `TYPE_MAPPING[field_type_str]` of the source. -/
def lookupType (t : String) : Option PyType :=
  (TYPE_MAPPING.find? (fun p => p.fst == t)).map Prod.snd

/-- whitespace characters of Python `str.strip()` with no arguments
(ASCII portion; the inputs of this module are ASCII). -/
def pyWsChars : List Char := [' ', '\t', '\n', '\r', '\x0b', '\x0c']

/-- drop the characters of `set` from both ends of a character list. -/
def trimEdges (set : List Char) (cs : List Char) : List Char :=
  ((cs.dropWhile (fun c => set.contains c)).reverse.dropWhile
    (fun c => set.contains c)).reverse

/-- Python `s.strip()` with no arguments. -/
def pyStrip (s : String) : String := String.mk (trimEdges pyWsChars s.toList)

/-- Python `s.strip` of the two quote characters, single and double. -/
def pyStripQuotes (s : String) : String := String.mk (trimEdges ['\'', '"'] s.toList)

/-- check that the first list is a prefix of the second. -/
def isPrefixList : List Char → List Char → Bool
  | [], _ => true
  | _ :: _, [] => false
  | p :: ps, c :: cs => p == c && isPrefixList ps cs

/-- Python `s.startswith(pre)`. -/
def pyStartsWith (s pre : String) : Bool := isPrefixList pre.toList s.toList

/-- Python `s.endswith(suf)`. -/
def pyEndsWith (s suf : String) : Bool := isPrefixList suf.toList.reverse s.toList.reverse

/-- Python `s[n:]` for nonnegative `n`, character based. -/
def pyDrop (s : String) (n : Nat) : String := String.mk (s.toList.drop n)

/-- dropping the last `n` characters, clamped at the empty string; together
with `pyDrop` this is Python `s[n:-n]`. -/
def pyDropRight (s : String) (n : Nat) : String :=
  String.mk ((s.toList.reverse.drop n).reverse)

/-- Python `content.split` on the two-character separator quote-comma,
scanning left to right without overlap, keeping empty parts. -/
def splitQuoteCommaAux : List Char → List Char → List String
  | '\'' :: ',' :: cs, cur => String.mk cur.reverse :: splitQuoteCommaAux cs []
  | c :: cs, cur => splitQuoteCommaAux cs (c :: cur)
  | [], cur => [String.mk cur.reverse]

/-- Python `content.split` on the separator quote-comma, on strings. -/
def splitQuoteComma (s : String) : List String := splitQuoteCommaAux s.toList []

/-- Python dict assignment `d[k] = v` on an insertion-ordered association
list without duplicate keys: an existing key keeps its position and takes
the new value, a new key is appended at the end. -/
def dictInsert {α β : Type} [BEq α] (kvs : List (α × β)) (k : α) (v : β) :
    List (α × β) :=
  if kvs.any (fun p => p.fst == k) then
    kvs.map (fun p => if p.fst == k then (k, v) else p)
  else kvs ++ [(k, v)]

/-- Python dict lookup, covering `d[k]`, `d.get(k, default)` via `Option.getD`,
and the membership test `k in d`. -/
def jLookup (kvs : List (String × JValue)) (k : String) : Option JValue :=
  (kvs.find? (fun p => p.fst == k)).map Prod.snd

/-- Python truthiness of a JSON-decoded value, for `if docstring:`. -/
def jTruthy : JValue → Bool
  | .str s => !(s == "")
  | .num n => !(n == 0)
  | .bool b => b
  | .null => false
  | .arr es => !es.isEmpty
  | .obj kvs => !kvs.isEmpty

/-- rendering of Python `type(v)` inside an f-string, e.g. "<class 'str'>". -/
def pyTypeRepr : JValue → String
  | .str _ => "<class 'str'>"
  | .num _ => "<class 'int'>"
  | .bool _ => "<class 'bool'>"
  | .null => "<class 'NoneType'>"
  | .arr _ => "<class 'list'>"
  | .obj _ => "<class 'dict'>"

/-- short Python type name of a JSON-decoded value, as it appears in an
AttributeError message. -/
def pyTypeShort : JValue → String
  | .str _ => "str"
  | .num _ => "int"
  | .bool _ => "bool"
  | .null => "NoneType"
  | .arr _ => "list"
  | .obj _ => "dict"

/-- comma-space joining used to render `list(TYPE_MAPPING.keys())`. -/
def joinCommaSep : List String → String
  | [] => ""
  | [s] => s
  | s :: rest => s ++ ", " ++ joinCommaSep rest

/-- rendering of `list(TYPE_MAPPING.keys())` in the unsupported-type message. -/
def supportedTypeNamesStr : String :=
  "[" ++ joinCommaSep (TYPE_MAPPING.map (fun p => "'" ++ p.fst ++ "'")) ++ "]"

/-- message of the TypeError raised for a field type outside TYPE_MAPPING. -/
def unsupportedMsg (t fieldName entityName : String) : String :=
  "Unsupported field type '" ++ t ++ "' for field '" ++ fieldName ++
    "' in entity '" ++ entityName ++ "'. Supported types: " ++ supportedTypeNamesStr

/-- one entry of the `pydantic_fields` dict: the looked-up Python type and
the Ellipsis default marking the field required. -/
structure FieldDef where
  ty : PyType
  required : Bool

/-- result of `create_model`: the model name, its field table in insertion
order, and the docstring attached only when truthy. -/
structure RecordModel where
  name : String
  fields : List (String × FieldDef)
  doc : Option JValue

/-- the inner `for field_name, field_type_str in fields.items()` loop that
appears verbatim in both `parse_json_to_entity_types` and
`create_entity_types_from_dict`.  A non-string field type behaves as the
Python membership test does: hashable scalars are simply not members and
hit the unsupported-type TypeError with their `str()` rendering, while
unhashable containers raise the interpreter's own TypeError. -/
def fieldLoop (entityName : String) :
    List (String × JValue) → List (String × FieldDef) →
    Except PyErr (List (String × FieldDef))
  | [], acc => .ok acc
  | (fieldName, .str t) :: rest, acc =>
    match lookupType t with
    | some pt => fieldLoop entityName rest (dictInsert acc fieldName ⟨pt, true⟩)
    | none => .error (.typeError (unsupportedMsg t fieldName entityName))
  | (fieldName, .num n) :: _, _ =>
    .error (.typeError (unsupportedMsg (toString n) fieldName entityName))
  | (fieldName, .bool b) :: _, _ =>
    .error (.typeError (unsupportedMsg (if b then "True" else "False") fieldName entityName))
  | (fieldName, .null) :: _, _ =>
    .error (.typeError (unsupportedMsg "None" fieldName entityName))
  | (_, .arr _) :: _, _ => .error (.typeError "unhashable type: 'list'")
  | (_, .obj _) :: _, _ => .error (.typeError "unhashable type: 'dict'")

/-- the entity loop of `parse_json_to_entity_types`, source lines 57 to 84:
structure check, docstring default, field conversion, model creation with
docstring attachment when truthy, and insertion into the result dict. -/
def entityLoopJson :
    List (String × JValue) → List (String × RecordModel) →
    Except PyErr (List (String × RecordModel))
  | [], acc => .ok acc
  | (entityName, .obj ckvs) :: rest, acc =>
    match jLookup ckvs "fields" with
    | none => .error (.valueError ("Entity '" ++ entityName ++ "' must have 'fields' key"))
    | some fieldsVal =>
      let docstring := (jLookup ckvs "docstring").getD (.str "")
      match fieldsVal with
      | .obj fkvs =>
        match fieldLoop entityName fkvs [] with
        | .ok pfields =>
          entityLoopJson rest (dictInsert acc entityName
            { name := entityName, fields := pfields,
              doc := if jTruthy docstring then some docstring else none })
        | .error e => .error e
      | fv => .error (.attributeError ("'" ++ pyTypeShort fv ++ "' object has no attribute 'items'"))
  | (entityName, _) :: _, _ =>
    .error (.valueError ("Entity '" ++ entityName ++ "' must have 'fields' key"))

/-- the entity loop of `create_entity_types_from_dict`, source lines 191 to
218; the Python body is textually identical to the loop of
`parse_json_to_entity_types` and is embedded again, separately, so that the
agreement of the two is provable rather than definitional. -/
def entityLoopDict :
    List (String × JValue) → List (String × RecordModel) →
    Except PyErr (List (String × RecordModel))
  | [], acc => .ok acc
  | (entityName, .obj ckvs) :: rest, acc =>
    match jLookup ckvs "fields" with
    | none => .error (.valueError ("Entity '" ++ entityName ++ "' must have 'fields' key"))
    | some fieldsVal =>
      let docstring := (jLookup ckvs "docstring").getD (.str "")
      match fieldsVal with
      | .obj fkvs =>
        match fieldLoop entityName fkvs [] with
        | .ok pfields =>
          entityLoopDict rest (dictInsert acc entityName
            { name := entityName, fields := pfields,
              doc := if jTruthy docstring then some docstring else none })
        | .error e => .error e
      | fv => .error (.attributeError ("'" ++ pyTypeShort fv ++ "' object has no attribute 'items'"))
  | (entityName, _) :: _, _ =>
    .error (.valueError ("Entity '" ++ entityName ++ "' must have 'fields' key"))

/-- everything inside the per-entry `try` of the edge-mapping loops:
content extraction `key_str[2:-2]`, split on quote-comma, per-part trim of
whitespace then of quote characters, arity check, tuple build, and the
list-shape check of the value.  Errors return the inner exception message,
which the caller wraps. -/
def edgeEntryInner (keyStr : String) (v : JValue) :
    Except String ((String × String) × List JValue) :=
  let parts := (splitQuoteComma (pyDropRight (pyDrop keyStr 2) 2)).map
    (fun p => pyStripQuotes (pyStrip p))
  match parts with
  | [a, b] =>
    match v with
    | .arr xs => .ok ((a, b), xs)
    | _ => .error ("Edge list for key '" ++ keyStr ++ "' must be a list, got: " ++ pyTypeRepr v)
  | _ => .error ("Edge mapping key must have exactly 2 entities: '" ++ keyStr ++ "'")

/-- the mapping loop of `parse_json_to_edge_mappings`, source lines 140 to
166: prefix and suffix check raised outside the `try`, then the guarded
decode whose failures are wrapped into a ValueError naming the key. -/
def edgeLoopJson :
    List (String × JValue) → List ((String × String) × List JValue) →
    Except PyErr (List ((String × String) × List JValue))
  | [], acc => .ok acc
  | (keyStr, v) :: rest, acc =>
    if pyStartsWith keyStr "('" && pyEndsWith keyStr "')" then
      match edgeEntryInner keyStr v with
      | .ok (pair, xs) => edgeLoopJson rest (dictInsert acc pair xs)
      | .error m =>
        .error (.valueError ("Failed to parse edge mapping key '" ++ keyStr ++ "': " ++ m))
    else
      .error (.valueError ("Invalid edge mapping key format: '" ++ keyStr ++
        "'. Expected format: \"('Source', 'Target')\""))

/-- the mapping loop of `convert_edge_mappings`, source lines 240 to 266;
the Python body is textually identical to the loop of
`parse_json_to_edge_mappings` and is embedded again, separately. -/
def edgeLoopDict :
    List (String × JValue) → List ((String × String) × List JValue) →
    Except PyErr (List ((String × String) × List JValue))
  | [], acc => .ok acc
  | (keyStr, v) :: rest, acc =>
    if pyStartsWith keyStr "('" && pyEndsWith keyStr "')" then
      match edgeEntryInner keyStr v with
      | .ok (pair, xs) => edgeLoopDict rest (dictInsert acc pair xs)
      | .error m =>
        .error (.valueError ("Failed to parse edge mapping key '" ++ keyStr ++ "': " ++ m))
    else
      .error (.valueError ("Invalid edge mapping key format: '" ++ keyStr ++
        "'. Expected format: \"('Source', 'Target')\""))

/-- whitespace skipped by the JSON decoder. -/
def jWs (c : Char) : Bool := c == ' ' || c == '\t' || c == '\n' || c == '\r'

/-- skip decoder whitespace. -/
def skipJWs : List Char → List Char
  | [] => []
  | c :: cs => if jWs c then skipJWs cs else c :: cs

/-- body of a JSON string literal after the opening quote, with the common
single-character escapes; accumulates characters in reverse. -/
def parseJStrAux : List Char → List Char → Except String (String × List Char)
  | [], _ => .error "Unterminated string"
  | c :: rest, acc =>
    if c == '"' then .ok (String.mk acc.reverse, rest)
    else if c == '\\' then
      match rest with
      | [] => .error "Unterminated string"
      | e :: rest2 =>
        if e == '"' then parseJStrAux rest2 ('"' :: acc)
        else if e == '\\' then parseJStrAux rest2 ('\\' :: acc)
        else if e == '/' then parseJStrAux rest2 ('/' :: acc)
        else if e == 'n' then parseJStrAux rest2 ('\n' :: acc)
        else if e == 't' then parseJStrAux rest2 ('\t' :: acc)
        else if e == 'r' then parseJStrAux rest2 ('\r' :: acc)
        else if e == 'b' then parseJStrAux rest2 ('\x08' :: acc)
        else if e == 'f' then parseJStrAux rest2 ('\x0c' :: acc)
        else .error "Invalid escape"
    else parseJStrAux rest (c :: acc)

/-- longest leading run of decimal digits. -/
def takeDigits : List Char → List Char × List Char
  | [] => ([], [])
  | c :: cs =>
    if c.isDigit then
      let p := takeDigits cs
      (c :: p.fst, p.snd)
    else ([], c :: cs)

/-- numeric value of a digit run. -/
def digitsToNat (ds : List Char) : Nat :=
  ds.foldl (fun acc c => acc * 10 + (c.toNat - '0'.toNat)) 0

/-- JSON integer literal; fraction and exponent forms are outside the model
(no claim involves them) and report a decode error. -/
def parseJNumber (neg : Bool) (cs : List Char) : Except String (JValue × List Char) :=
  let p := takeDigits cs
  if p.fst.isEmpty then .error "Expecting value"
  else
    match p.snd with
    | c :: _ =>
      if c == '.' || c == 'e' || c == 'E' then
        .error "non-integer number literals are outside this model"
      else .ok (.num (if neg then -(digitsToNat p.fst : Int) else (digitsToNat p.fst : Int)), p.snd)
    | [] => .ok (.num (if neg then -(digitsToNat p.fst : Int) else (digitsToNat p.fst : Int)), [])

mutual

/-- one JSON value, fuel-bounded; models Python `json.loads` on the shapes
the source meets.  Duplicate object keys collapse last-write-wins exactly
as the Python decoder collapses them. -/
def parseJValue : Nat → List Char → Except String (JValue × List Char)
  | 0, _ => .error "input too deeply nested"
  | n + 1, cs =>
    match skipJWs cs with
    | [] => .error "Expecting value"
    | c :: rest =>
      if c == '\x7b' then
        match skipJWs rest with
        | '\x7d' :: rest2 => .ok (.obj [], rest2)
        | rest2 => parseJMembers n rest2 []
      else if c == '[' then
        match skipJWs rest with
        | ']' :: rest2 => .ok (.arr [], rest2)
        | rest2 => parseJItems n rest2 []
      else if c == '"' then
        match parseJStrAux rest [] with
        | .ok (s, rest2) => .ok (.str s, rest2)
        | .error e => .error e
      else if c == '-' then parseJNumber true rest
      else if c.isDigit then parseJNumber false (c :: rest)
      else
        match c :: rest with
        | 't' :: 'r' :: 'u' :: 'e' :: r => .ok (.bool true, r)
        | 'f' :: 'a' :: 'l' :: 's' :: 'e' :: r => .ok (.bool false, r)
        | 'n' :: 'u' :: 'l' :: 'l' :: r => .ok (.null, r)
        | _ => .error "Expecting value"

/-- members of a JSON object after the opening brace, at least one. -/
def parseJMembers : Nat → List Char → List (String × JValue) →
    Except String (JValue × List Char)
  | 0, _, _ => .error "input too deeply nested"
  | n + 1, cs, acc =>
    match skipJWs cs with
    | '"' :: rest =>
      match parseJStrAux rest [] with
      | .error e => .error e
      | .ok (k, rest2) =>
        match skipJWs rest2 with
        | ':' :: rest3 =>
          match parseJValue n rest3 with
          | .error e => .error e
          | .ok (v, rest4) =>
            match skipJWs rest4 with
            | ',' :: rest5 => parseJMembers n rest5 (dictInsert acc k v)
            | '\x7d' :: rest5 => .ok (.obj (dictInsert acc k v), rest5)
            | _ => .error "Expecting delimiter"
        | _ => .error "Expecting colon delimiter"
    | _ => .error "Expecting property name enclosed in double quotes"

/-- items of a JSON array after the opening bracket, at least one. -/
def parseJItems : Nat → List Char → List JValue →
    Except String (JValue × List Char)
  | 0, _, _ => .error "input too deeply nested"
  | n + 1, cs, acc =>
    match parseJValue n cs with
    | .error e => .error e
    | .ok (v, rest) =>
      match skipJWs rest with
      | ',' :: rest2 => parseJItems n rest2 (acc ++ [v])
      | ']' :: rest2 => .ok (.arr (acc ++ [v]), rest2)
      | _ => .error "Expecting delimiter"

end

/-- Python `json.loads`: one value, then nothing but whitespace. -/
def jsonLoads (s : String) : Except String JValue :=
  match parseJValue (s.length + 2) s.toList with
  | .error e => .error e
  | .ok (v, rest) =>
    match skipJWs rest with
    | [] => .ok v
    | _ => .error "Extra data"

/-- `parse_json_to_entity_types` from the source: JSON decode (failure
wrapped in a ValueError), then the entity loop over the decoded items; a
non-object decode hits `entity_data.items()` and its AttributeError. -/
def parse_json_to_entity_types (jsonStr : String) :
    Except PyErr (List (String × RecordModel)) :=
  match jsonLoads jsonStr with
  | .error e => .error (.valueError ("Invalid JSON format for entity types: " ++ e))
  | .ok (.obj kvs) => entityLoopJson kvs []
  | .ok v => .error (.attributeError ("'" ++ pyTypeShort v ++ "' object has no attribute 'items'"))

/-- `parse_json_to_edge_types`: delegates to entity parsing and re-raises
any exception whatsoever as a ValueError with a fixed message stem. -/
def parse_json_to_edge_types (jsonStr : String) :
    Except PyErr (List (String × RecordModel)) :=
  match parse_json_to_entity_types jsonStr with
  | .ok r => .ok r
  | .error e => .error (.valueError ("Failed to parse edge types: " ++ e.msg))

/-- `parse_json_to_edge_mappings`: JSON decode (failure wrapped in a
ValueError), then the mapping loop over the decoded items. -/
def parse_json_to_edge_mappings (jsonStr : String) :
    Except PyErr (List ((String × String) × List JValue)) :=
  match jsonLoads jsonStr with
  | .error e => .error (.valueError ("Invalid JSON format for edge mappings: " ++ e))
  | .ok (.obj kvs) => edgeLoopJson kvs []
  | .ok v => .error (.attributeError ("'" ++ pyTypeShort v ++ "' object has no attribute 'items'"))

/-- `create_entity_types_from_dict`: the entity loop applied directly to a
pre-parsed mapping. -/
def create_entity_types_from_dict (entityData : List (String × JValue)) :
    Except PyErr (List (String × RecordModel)) :=
  entityLoopDict entityData []

/-- `convert_edge_mappings`: the mapping loop applied directly to a
pre-parsed mapping. -/
def convert_edge_mappings (edgeData : List (String × JValue)) :
    Except PyErr (List ((String × String) × List JValue)) :=
  edgeLoopDict edgeData []


/-- check that the second character list occurs contiguously in the first. -/
def hasSubstr : List Char → List Char → Bool
  | [], needle => needle.isEmpty
  | c :: cs, needle => isPrefixList needle (c :: cs) || hasSubstr cs needle

/-- containment of one string in another, used to state that an error
message mentions an identifier. -/
def strContainsSub (hay need : String) : Bool := hasSubstr hay.toList need.toList

theorem entityLoop_agree (l : List (String × JValue)) :
    ∀ acc, entityLoopJson l acc = entityLoopDict l acc := by
  induction l with
  | nil => intro acc; rfl
  | cons hd rest ih =>
    intro acc
    obtain ⟨entityName, cfg⟩ := hd
    cases cfg with
    | obj ckvs =>
      cases h : jLookup ckvs "fields" with
      | none => simp only [entityLoopJson, entityLoopDict, h]
      | some fieldsVal =>
        cases fieldsVal with
        | obj fkvs =>
          cases hb : fieldLoop entityName fkvs [] with
          | ok pfields =>
            simp only [entityLoopJson, entityLoopDict, h, hb]
            exact ih _
          | error e => simp only [entityLoopJson, entityLoopDict, h, hb]
        | str s => simp only [entityLoopJson, entityLoopDict, h]
        | num n => simp only [entityLoopJson, entityLoopDict, h]
        | bool b => simp only [entityLoopJson, entityLoopDict, h]
        | null => simp only [entityLoopJson, entityLoopDict, h]
        | arr es => simp only [entityLoopJson, entityLoopDict, h]
    | str s => rfl
    | num n => rfl
    | bool b => rfl
    | null => rfl
    | arr es => rfl

theorem edgeLoop_agree (l : List (String × JValue)) :
    ∀ acc, edgeLoopJson l acc = edgeLoopDict l acc := by
  induction l with
  | nil => intro acc; rfl
  | cons hd rest ih =>
    intro acc
    obtain ⟨keyStr, v⟩ := hd
    cases hc : pyStartsWith keyStr "('" && pyEndsWith keyStr "')" with
    | false =>
      simp only [edgeLoopJson, edgeLoopDict]
      rw [hc]
      rfl
    | true =>
      cases he : edgeEntryInner keyStr v with
      | ok pr =>
        obtain ⟨pair, xs⟩ := pr
        simp only [edgeLoopJson, edgeLoopDict]
        rw [hc, he]
        exact ih _
      | error m =>
        simp only [edgeLoopJson, edgeLoopDict]
        rw [hc, he]

theorem lookupType_eq_none (t : String) (h : t ∉ TYPE_MAPPING.map Prod.fst) :
    lookupType t = none := by
  have hf : TYPE_MAPPING.find? (fun p => p.fst == t) = none := by
    apply List.find?_eq_none.mpr
    intro x hx hpx
    exact h (List.mem_map.mpr ⟨x, hx, eq_of_beq hpx⟩)
  simp [lookupType, hf]

theorem entity_single_shape (entityName fieldName : String) (ftv : JValue) :
    create_entity_types_from_dict
        [(entityName, JValue.obj [("fields", JValue.obj [(fieldName, ftv)])])] =
      match fieldLoop entityName [(fieldName, ftv)] [] with
      | .ok pf => .ok [(entityName, { name := entityName, fields := pf, doc := none })]
      | .error e => .error e := rfl

theorem edge_single_shape (keyStr : String) (v : JValue) :
    convert_edge_mappings [(keyStr, v)] =
      if pyStartsWith keyStr "('" && pyEndsWith keyStr "')" then
        match edgeEntryInner keyStr v with
        | .ok (pair, xs) => .ok [(pair, xs)]
        | .error m =>
          .error (.valueError ("Failed to parse edge mapping key '" ++ keyStr ++ "': " ++ m))
      else
        .error (.valueError ("Invalid edge mapping key format: '" ++ keyStr ++
          "'. Expected format: \"('Source', 'Target')\"")) := rfl

/-- Claim C1: edge-type building delegates to entity-type building, so the
result tables agree on success; but its blanket exception wrapper re-raises
the unsupported-type TypeError as a ValueError with a prefixed message, so
on invalid input the two entry points fail with different error kinds.  At
the failing input below the entity route raises TypeError and the edge
route raises ValueError. -/
theorem c1_edge_wrapper_changes_error_kind :
    parse_json_to_entity_types "\x7b\"E\": \x7b\"fields\": \x7b\"f\": \"banana\"\x7d\x7d\x7d" =
      .error (.typeError (unsupportedMsg "banana" "f" "E")) ∧
    parse_json_to_edge_types "\x7b\"E\": \x7b\"fields\": \x7b\"f\": \"banana\"\x7d\x7d\x7d" =
      .error (.valueError ("Failed to parse edge types: " ++ unsupportedMsg "banana" "f" "E")) :=
  ⟨rfl, rfl⟩

/-- Claim C2: for every JSON text that decodes to a mapping, the JSON entry
points equal the corresponding dict entry points applied to the decoded
mapping: the two routes differ only by the initial JSON decode. -/
theorem c2_json_route_agrees_with_dict_route (s : String) (d : List (String × JValue))
    (h : jsonLoads s = .ok (.obj d)) :
    parse_json_to_edge_mappings s = convert_edge_mappings d ∧
    parse_json_to_entity_types s = create_entity_types_from_dict d := by
  constructor
  · simp only [parse_json_to_edge_mappings, h, convert_edge_mappings]
    exact edgeLoop_agree d []
  · simp only [parse_json_to_entity_types, h, create_entity_types_from_dict]
    exact entityLoop_agree d []

theorem c2_json_route_agrees_with_dict_route_witness :
    parse_json_to_edge_mappings "\x7b\"a\": 1\x7d" = convert_edge_mappings [("a", JValue.num 1)] ∧
    parse_json_to_entity_types "\x7b\"a\": 1\x7d" =
      create_entity_types_from_dict [("a", JValue.num 1)] :=
  c2_json_route_agrees_with_dict_route _ _ rfl

/-- Claim C3: for every type-name string outside the Type Table, building a
declaration with a field of that type fails with a TypeError whose message
names the field, the owning type, and the rendered list of all twelve
supported type names. -/
theorem c3_unknown_field_type_rejected (entityName fieldName t : String)
    (h : t ∉ TYPE_MAPPING.map Prod.fst) :
    create_entity_types_from_dict
        [(entityName, JValue.obj [("fields", JValue.obj [(fieldName, JValue.str t)])])] =
      .error (.typeError ("Unsupported field type '" ++ t ++ "' for field '" ++ fieldName ++
        "' in entity '" ++ entityName ++ "'. Supported types: " ++ supportedTypeNamesStr)) ∧
    ∀ n ∈ TYPE_MAPPING.map Prod.fst,
      strContainsSub supportedTypeNamesStr ("'" ++ n ++ "'") = true := by
  have hl := lookupType_eq_none t h
  constructor
  · have hfl : fieldLoop entityName [(fieldName, JValue.str t)] [] =
        .error (.typeError (unsupportedMsg t fieldName entityName)) := by
      simp only [fieldLoop, hl]
    rw [entity_single_shape, hfl]
    rfl
  · decide

theorem c3_unknown_field_type_rejected_witness :
    create_entity_types_from_dict
        [("Person", JValue.obj [("fields", JValue.obj [("nickname", JValue.str "banana")])])] =
      .error (.typeError ("Unsupported field type 'banana' for field 'nickname' in entity 'Person'. Supported types: ['str', 'int', 'float', 'bool', 'list', 'dict', 'List[str]', 'List[int]', 'List[float]', 'Dict[str, Any]', 'Dict[str, str]', 'Dict[str, int]']")) :=
  (c3_unknown_field_type_rejected "Person" "nickname" "banana" (by decide)).1

/-- Claim C4: two entries whose distinct key spellings decode to the same
pair leave exactly one entry in the table, holding the later list. -/
theorem c4_duplicate_decoded_keys_last_write_wins :
    convert_edge_mappings
        [("('A','B')", JValue.arr [JValue.str "WORKS_AT"]),
         ("('A', 'B')", JValue.arr [JValue.str "MANAGES"])] =
      .ok [(("A", "B"), [JValue.str "MANAGES"])] := rfl

/-- Claim C5: a declaration with fields name: str and age: int and docstring
"A person" builds a model with exactly those two required fields and that
docstring attached. -/
theorem c5_person_fields_docstring_round_trip :
    create_entity_types_from_dict
        [("Person", JValue.obj
          [("fields", JValue.obj [("name", JValue.str "str"), ("age", JValue.str "int")]),
           ("docstring", JValue.str "A person")])] =
      .ok [("Person",
        { name := "Person",
          fields := [("name", { ty := PyType.str, required := true }),
                     ("age", { ty := PyType.int, required := true })],
          doc := some (JValue.str "A person") })] := rfl

/-- Claim C6: decoding the key for Person and Company yields that pair; in
general, for a key with the required prefix and suffix whose content splits
on quote-comma into two parts, the built entry carries the two parts with
surrounding whitespace trimmed first and stray quote characters second. -/
theorem c6_pair_key_decode :
    (convert_edge_mappings [("('Person', 'Company')", JValue.arr [JValue.str "WORKS_AT"])] =
      .ok [(("Person", "Company"), [JValue.str "WORKS_AT"])]) ∧
    ∀ (keyStr : String) (xs : List JValue) (p q : String),
      pyStartsWith keyStr "('" = true → pyEndsWith keyStr "')" = true →
      splitQuoteComma (pyDropRight (pyDrop keyStr 2) 2) = [p, q] →
      convert_edge_mappings [(keyStr, JValue.arr xs)] =
        .ok [((pyStripQuotes (pyStrip p), pyStripQuotes (pyStrip q)), xs)] := by
  constructor
  · rfl
  · intro keyStr xs p q h1 h2 hsplit
    have he : edgeEntryInner keyStr (JValue.arr xs) =
        .ok ((pyStripQuotes (pyStrip p), pyStripQuotes (pyStrip q)), xs) := by
      simp only [edgeEntryInner, hsplit, List.map]
    rw [edge_single_shape, h1, h2, he]
    rfl

theorem c6_pair_key_decode_witness :
    convert_edge_mappings [("('X', 'Y')", JValue.arr [])] = .ok [(("X", "Y"), [])] :=
  c6_pair_key_decode.2 "('X', 'Y')" [] "X" " 'Y" rfl rfl rfl

/-- Claim C7: a key string lacking the two-character prefix or suffix makes
the build fail, before anything else, with a ValueError quoting the string
and the expected pattern. -/
theorem c7_key_format_error_on_bad_affixes (keyStr : String) (v : JValue)
    (h : (pyStartsWith keyStr "('" && pyEndsWith keyStr "')") = false) :
    convert_edge_mappings [(keyStr, v)] =
      .error (.valueError ("Invalid edge mapping key format: '" ++ keyStr ++
        "'. Expected format: \"('Source', 'Target')\"")) := by
  rw [edge_single_shape, h]
  rfl

theorem c7_key_format_error_on_bad_affixes_witness :
    convert_edge_mappings [("bad", JValue.arr [])] =
      .error (.valueError "Invalid edge mapping key format: 'bad'. Expected format: \"('Source', 'Target')\"") :=
  c7_key_format_error_on_bad_affixes "bad" (JValue.arr []) rfl

/-- Claim C8: an entry whose key decodes but whose value is not a list fails
with a ValueError naming the key and the received Python type, wrapped by
the per-key failure message. -/
theorem c8_value_shape_error_on_nonlist (keyStr : String) (v : JValue) (p q : String)
    (h1 : pyStartsWith keyStr "('" = true) (h2 : pyEndsWith keyStr "')" = true)
    (hsplit : splitQuoteComma (pyDropRight (pyDrop keyStr 2) 2) = [p, q])
    (hv : v.isArr = false) :
    convert_edge_mappings [(keyStr, v)] =
      .error (.valueError ("Failed to parse edge mapping key '" ++ keyStr ++ "': " ++
        ("Edge list for key '" ++ keyStr ++ "' must be a list, got: " ++ pyTypeRepr v))) := by
  have he : edgeEntryInner keyStr v =
      .error ("Edge list for key '" ++ keyStr ++ "' must be a list, got: " ++ pyTypeRepr v) := by
    cases v with
    | arr xs => simp [JValue.isArr] at hv
    | str s => simp only [edgeEntryInner, hsplit, List.map]
    | num n => simp only [edgeEntryInner, hsplit, List.map]
    | bool b => simp only [edgeEntryInner, hsplit, List.map]
    | null => simp only [edgeEntryInner, hsplit, List.map]
    | obj kvs => simp only [edgeEntryInner, hsplit, List.map]
  rw [edge_single_shape, h1, h2, he]
  rfl

theorem c8_value_shape_error_on_nonlist_witness :
    convert_edge_mappings [("('A', 'B')", JValue.str "WORKS_AT")] =
      .error (.valueError "Failed to parse edge mapping key '('A', 'B')': Edge list for key '('A', 'B')' must be a list, got: <class 'str'>") :=
  c8_value_shape_error_on_nonlist "('A', 'B')" (JValue.str "WORKS_AT") "A" " 'B" rfl rfl rfl rfl

/-- Claim C9: the per-part clean-up strips whitespace first and quote
characters second, one pass each, so whitespace inside the quotes of the
second component survives decoding. -/
theorem c9_whitespace_inside_quotes_survives :
    convert_edge_mappings [("(' A ', ' B ')", JValue.arr [])] =
      .ok [(("A", " B"), [])] := rfl

/-- Claim C10: the empty mapping, pre-parsed or as the JSON text of an empty
object, makes every public operation succeed with the empty table. -/
theorem c10_empty_inputs_give_empty_tables :
    parse_json_to_entity_types "\x7b\x7d" = .ok [] ∧
    parse_json_to_edge_types "\x7b\x7d" = .ok [] ∧
    parse_json_to_edge_mappings "\x7b\x7d" = .ok [] ∧
    create_entity_types_from_dict [] = .ok [] ∧
    convert_edge_mappings [] = .ok [] :=
  ⟨rfl, rfl, rfl, rfl, rfl⟩
